import Mathlib

/-!
Shallow embedding of the authorization and tenancy-resolution core of the
IoT-Automation-node backend, together with theorems settling the frozen
claims about its specification.

Conventions of the embedding:
* TypeScript enums become Lean inductives; machine strings stay `String`.
* Fallible service methods become pure functions returning the resulting
  database state paired with an optional typed error (`DB × Option AppError`),
  so that a run that throws mid-way still exposes the writes performed so far.
* Prisma queries are embedded as list operations over an explicit `DB` record
  (row ids are assumed unique per table, as guaranteed by the schema).
* JavaScript truthiness of optional strings (`undefined` and `""` are falsy)
  is embedded as `strTruthy`.
* Opaque payload fields that no branch of the modelled code inspects
  (password hashes, device calibration numbers, timestamps) are omitted.
-/

namespace IotNode

/-- `Role` enum from src/types/user.types.ts. -/
inductive Role
  | VIEWER
  | MANAGER
  | ADMIN
  | SUPER_ADMIN
  deriving DecidableEq, Repr, Fintype

/-- `UserStatus` enum from src/types/user.types.ts. -/
inductive UserStatus
  | ADDED
  | VALIDATED
  | SUSPENDED
  deriving DecidableEq, Repr

/-- The string rendering of a role, used in interpolated error messages. -/
def Role.toStr : Role → String
  | .VIEWER => "VIEWER"
  | .MANAGER => "MANAGER"
  | .ADMIN => "ADMIN"
  | .SUPER_ADMIN => "SUPER_ADMIN"

/-- The three mutating actions of `canManageRole` in src/utils/permissions.ts. -/
inductive RoleAction
  | create
  | update
  | delete
  deriving DecidableEq, Repr, Fintype

/-- The literal `actionMap` of `canManageRole` (src/utils/permissions.ts):
for each action and actor role, the list of target roles the actor may act on. -/
def actionMap : RoleAction → Role → List Role
  | .create, .SUPER_ADMIN => [.SUPER_ADMIN, .ADMIN, .MANAGER, .VIEWER]
  | .create, .ADMIN => [.MANAGER, .VIEWER]
  | .create, .MANAGER => [.VIEWER]
  | .create, .VIEWER => []
  | .update, .SUPER_ADMIN => [.SUPER_ADMIN, .ADMIN, .MANAGER, .VIEWER]
  | .update, .ADMIN => [.MANAGER, .VIEWER]
  | .update, .MANAGER => [.VIEWER]
  | .update, .VIEWER => []
  | .delete, .SUPER_ADMIN => [.ADMIN, .MANAGER, .VIEWER]
  | .delete, .ADMIN => [.MANAGER, .VIEWER]
  | .delete, .MANAGER => [.VIEWER]
  | .delete, .VIEWER => []

/-- `canManageRole(actorRole, targetRole, action)` from src/utils/permissions.ts:
`actionMap[action][actorRole]?.includes(targetRole) ?? false`. -/
def canManageRole (actorRole targetRole : Role) (action : RoleAction) : Bool :=
  (actionMap action actorRole).contains targetRole

/-- The typed error taxonomy of src/utils/errors.ts (messages kept, status codes
implied by the constructor). -/
inductive AppError
  | validation (msg : String)
  | notFound (msg : String)
  | unauthorized (msg : String)
  | forbidden (msg : String)
  | conflict (msg : String)
  deriving DecidableEq, Repr

deriving instance DecidableEq for Except

/-- `AuthUser` from src/types/user.types.ts (the authenticated-caller descriptor). -/
structure AuthUser where
  id : String
  role : Role
  companyIds : List String
  primaryCompanyId : Option String := none
  deriving DecidableEq, Repr

/-- JavaScript truthiness of an optional string value: `undefined` and the
empty string are falsy, every other string is truthy. -/
def strTruthy : Option String → Bool
  | none => false
  | some s => !s.isEmpty

/-- Hexadecimal digit test, matching the `[0-9a-f]` character class with the
`i` (case-insensitive) flag of the middleware's `uuidRegex`. -/
def isHexDigit (c : Char) : Bool :=
  c.isDigit || (('a' ≤ c && c ≤ 'f') || ('A' ≤ c && c ≤ 'F'))

/-- The `uuidRegex` membership test of activeCompany.middleware.ts: 36
characters shaped 8-4-4-4-12 with dashes at positions 8, 13, 18, 23 and hex
digits everywhere else. -/
def isUuid (s : String) : Bool :=
  let cs := s.data
  cs.length == 36 &&
    (List.range 36).all (fun i =>
      if i == 8 || i == 13 || i == 18 || i == 23 then cs.getD i ' ' == '-'
      else isHexDigit (cs.getD i ' '))

/-- `activeCompanyMiddleware` from src/middlewares/activeCompany.middleware.ts,
as a function of the caller and the `X-Active-Company` header. `Except.ok none`
means the request proceeds with no `activeCompanyId` attached (SUPER_ADMIN
without a header); `Except.ok (some c)` means `req.activeCompanyId = c`. -/
def activeCompanyMiddleware (authUser : AuthUser) (headerCompanyId : Option String) :
    Except AppError (Option String) :=
  if authUser.role = Role.SUPER_ADMIN then
    if strTruthy headerCompanyId then
      if !isUuid (headerCompanyId.getD "") then
        .error (.validation "Invalid company ID format in header")
      else .ok (some (headerCompanyId.getD ""))
    else .ok none
  else
    if strTruthy headerCompanyId then
      if !isUuid (headerCompanyId.getD "") then
        .error (.validation "Invalid company ID format in header")
      else if !(authUser.companyIds.contains (headerCompanyId.getD "")) then
        .error (.forbidden ("Access denied. User is not assigned to company ID: "
          ++ headerCompanyId.getD "" ++ "."))
      else
        -- a validated header is a non-empty string, so the fallback and the
        -- final safety check are skipped
        .ok (some (headerCompanyId.getD ""))
    else
      -- smart fallback: primary company first, then first assigned company
      let fallback : Option String :=
        if strTruthy authUser.primaryCompanyId then authUser.primaryCompanyId
        else authUser.companyIds.head?
      if !(strTruthy fallback) then
        .error (.forbidden
          "Active company context required. User is not assigned to any company.")
      else .ok fallback

/-- Whether a middleware outcome is a `ForbiddenError`. -/
def isForbiddenResult : Except AppError (Option String) → Bool
  | .error (.forbidden _) => true
  | _ => false

namespace DeviceService

/-- `DeviceService.getActiveCompanyId` from src/services/device.service.ts:
header wins (with a membership check for non-SUPER_ADMIN), otherwise the first
element of `authUser.companyIds` (the code calls it "primary company" but reads
`companyIds[0]`). -/
def getActiveCompanyId (authUser : AuthUser) (headerCompanyId : Option String) :
    Except AppError String :=
  if strTruthy headerCompanyId then
    if authUser.role != Role.SUPER_ADMIN &&
        !(authUser.companyIds.contains (headerCompanyId.getD "")) then
      .error (.forbidden "You do not have access to the specified company")
    else .ok (headerCompanyId.getD "")
  else
    if strTruthy authUser.companyIds.head? then
      .ok (authUser.companyIds.headD "")
    else
      .error (.validation
        "No active company specified. Please provide X-Active-Company header.")

end DeviceService

/-! ### Database model

Row types mirror the Prisma schema fields that the modelled services read or
write; `DB` is the visible persistent state. -/

/-- A `Company` row (payload fields the modelled code never reads are omitted). -/
structure CompanyRow where
  id : String
  name : String
  deleted : Bool := false
  deriving DecidableEq, Repr

/-- A `Device` row. -/
structure DeviceRow where
  id : String
  name : String
  serialNumber : String
  companyId : String
  parentId : Option String := none
  deleted : Bool := false
  deriving DecidableEq, Repr

/-- A `User` row (password hash omitted: no modelled branch reads it). -/
structure UserRow where
  id : String
  name : String
  email : String
  phoneNumber : Option String := none
  role : Role
  status : UserStatus := .ADDED
  position : Option String := none
  primaryCompanyId : Option String := none
  deleted : Bool := false
  deriving DecidableEq, Repr

/-- A `UserCompany` join row. -/
structure UserCompanyRow where
  userId : String
  companyId : String
  deriving DecidableEq, Repr

/-- A `UserDevice` join row. -/
structure UserDeviceRow where
  userId : String
  deviceId : String
  deriving DecidableEq, Repr

/-- A `Session` row (only the owning user matters to the modelled code). -/
structure SessionRow where
  userId : String
  deriving DecidableEq, Repr

/-- The persistent state visible to the modelled services. -/
structure DB where
  users : List UserRow := []
  companies : List CompanyRow := []
  devices : List DeviceRow := []
  userCompanies : List UserCompanyRow := []
  userDevices : List UserDeviceRow := []
  sessions : List SessionRow := []
  deriving DecidableEq, Repr

/-- `CreateUserInput` (zod `createUserSchema`; `companyIds` and `deviceIds`
default to `[]`). -/
structure CreateUserInput where
  name : String
  email : String
  phoneNumber : Option String := none
  role : Role
  position : Option String := none
  companyIds : List String := []
  deviceIds : List String := []
  deriving DecidableEq, Repr

/-- `UpdateUserInput` (zod `updateUserSchema`; every field optional, nullable
fields carry `Option (Option _)`: outer `none` = field absent). -/
structure UpdateUserInput where
  name : Option String := none
  email : Option String := none
  phoneNumber : Option (Option String) := none
  role : Option Role := none
  status : Option UserStatus := none
  position : Option (Option String) := none
  companyIds : Option (List String) := none
  deviceIds : Option (List String) := none
  deriving DecidableEq, Repr

namespace UserService

/-- `UserService.canManageUser` (src/services/user.service.ts): pure role
hierarchy, SUPER_ADMIN can manage anyone. -/
def canManageUser (authUser : AuthUser) (targetRole : Role) : Bool :=
  if authUser.role = Role.SUPER_ADMIN then true
  else if authUser.role = Role.ADMIN then
    [Role.MANAGER, Role.VIEWER].contains targetRole
  else if authUser.role = Role.MANAGER then targetRole == Role.VIEWER
  else false

/-- `UserService.canCreateRole` (src/services/user.service.ts). -/
def canCreateRole (authUser : AuthUser) (targetRole : Role) : Bool :=
  match authUser.role with
  | .SUPER_ADMIN => true
  | .ADMIN => [Role.MANAGER, Role.VIEWER].contains targetRole
  | .MANAGER => targetRole == Role.VIEWER
  | .VIEWER => false

/-- The `companyIds` local of `createUser`: the request's list, or the caller's
own companies when the request's list is empty and the caller is not
SUPER_ADMIN. -/
def effectiveCompanyIds (data : CreateUserInput) (authUser : AuthUser) : List String :=
  if data.companyIds.isEmpty && authUser.role != Role.SUPER_ADMIN then
    authUser.companyIds
  else data.companyIds

/-- The company-validation guard of `createUser`: some requested company id is
missing (or soft-deleted, or duplicated) in the company table. -/
def createCompanyIdsInvalid (data : CreateUserInput) (authUser : AuthUser) (db : DB) : Bool :=
  let companyIds := effectiveCompanyIds data authUser
  companyIds.length > 0 &&
    (db.companies.filter (fun c => companyIds.contains c.id && !c.deleted)).length
      != companyIds.length

/-- The device-validation phase of `createUser` (runs after the VIEWER check;
returns the error it would throw, if any). -/
def createDeviceError (data : CreateUserInput) (authUser : AuthUser) (db : DB) :
    Option AppError :=
  let deviceIds := data.deviceIds
  if deviceIds.length > 0 then
    let devices := db.devices.filter (fun d => deviceIds.contains d.id && !d.deleted)
    if devices.length != deviceIds.length then
      some (.validation "One or more device IDs are invalid")
    else if authUser.role != Role.SUPER_ADMIN &&
        !(devices.all (fun d => authUser.companyIds.contains d.companyId)) then
      some (.forbidden "You can only assign devices from companies you have access to")
    else if (effectiveCompanyIds data authUser).length > 0 &&
        !(devices.all (fun d => (effectiveCompanyIds data authUser).contains d.companyId)) then
      some (.validation "All assigned devices must belong to the user's assigned companies")
    else none
  else none

/-- `UserService.createUser` (src/services/user.service.ts). `newId` stands for
the id the store generates for the new row. All validation precedes the single
`user.create`, so every error leaves the state unchanged. -/
def createUser (data : CreateUserInput) (authUser : AuthUser) (newId : String) (db : DB) :
    DB × Option AppError :=
  if !(canCreateRole authUser data.role) then
    (db, some (.forbidden ("You do not have permission to create "
      ++ data.role.toStr ++ " users")))
  else if db.users.any (fun u => u.email == data.email) then
    (db, some (.conflict "User with this email already exists"))
  else if createCompanyIdsInvalid data authUser db then
    (db, some (.validation "One or more company IDs are invalid"))
  else if data.role == Role.VIEWER && data.deviceIds.isEmpty then
    (db, some (.validation "VIEWER users must have at least one device assigned"))
  else
    match createDeviceError data authUser db with
    | some e => (db, some e)
    | none =>
      let companyIds := effectiveCompanyIds data authUser
      let newUser : UserRow :=
        { id := newId
          name := data.name
          email := data.email
          phoneNumber := data.phoneNumber
          role := data.role
          status := .ADDED
          position := data.position
          primaryCompanyId := if companyIds.length == 1 then companyIds.head? else none
          deleted := false }
      ({ db with
          users := db.users ++ [newUser]
          userCompanies := db.userCompanies
            ++ companyIds.map (fun cid => { userId := newId, companyId := cid })
          userDevices := db.userDevices
            ++ data.deviceIds.map (fun did => { userId := newId, deviceId := did }) },
        none)

/-- The email-uniqueness guard of `updateUser`: a different email was supplied
and some user row (deleted ones included, as in the source's `findUnique`)
already carries it. -/
def emailConflict (data : UpdateUserInput) (existingUser : UserRow) (db : DB) : Bool :=
  match data.email with
  | none => false
  | some e => e != existingUser.email && db.users.any (fun u => u.email == e)

/-- The company-validation guard of `updateUser`. -/
def companyIdsInvalid (data : UpdateUserInput) (db : DB) : Bool :=
  match data.companyIds with
  | none => false
  | some cids =>
    cids.length > 0 &&
      (db.companies.filter (fun c => cids.contains c.id && !c.deleted)).length
        != cids.length

/-- The company writes of `updateUser`: `userCompany.deleteMany` for the user
followed by `createMany` over the supplied list (no-op when `companyIds` is
absent from the input). -/
def applyCompanyWrites (id : String) (data : UpdateUserInput) (db : DB) : DB :=
  match data.companyIds with
  | none => db
  | some cids =>
    { db with userCompanies :=
        (db.userCompanies.filter (fun uc => uc.userId != id))
          ++ cids.map (fun cid => { userId := id, companyId := cid }) }

/-- How `updateUser` sets `updateData.primaryCompanyId`: to the sole company
when exactly one is supplied, to null when none are supplied, untouched
otherwise (including the multi-valued case). -/
def primaryCompanyUpdate (data : UpdateUserInput) : Option (Option String) :=
  match data.companyIds with
  | none => none
  | some cids =>
    if cids.length == 1 then some cids.head?
    else if cids.length == 0 then some none
    else none

/-- The device-validation phase of `updateUser` (the error it would throw, if
any); `existingUser` and the user's pre-update company rows come from the
initial lookup. -/
def devicePhaseError (id : String) (data : UpdateUserInput) (authUser : AuthUser)
    (existingUser : UserRow) (db : DB) : Option AppError :=
  match data.deviceIds with
  | none => none
  | some dids =>
    let finalRole := data.role.getD existingUser.role
    if finalRole == Role.VIEWER && dids.isEmpty then
      some (.validation "VIEWER users must have at least one device assigned")
    else if dids.length > 0 then
      let devices := db.devices.filter (fun d => dids.contains d.id && !d.deleted)
      if devices.length != dids.length then
        some (.validation "One or more device IDs are invalid")
      else if authUser.role != Role.SUPER_ADMIN &&
          !(devices.all (fun d => authUser.companyIds.contains d.companyId)) then
        some (.forbidden "You can only assign devices from companies you have access to")
      else
        let userCompanyIds : List String :=
          match data.companyIds with
          | some cids => cids
          | none => (db.userCompanies.filter (fun uc => uc.userId == id)).map
              (fun uc => uc.companyId)
        if userCompanyIds.length > 0 &&
            !(devices.all (fun d => userCompanyIds.contains d.companyId)) then
          some (.validation "All assigned devices must belong to the user's assigned companies")
        else none
    else none

/-- The device writes of `updateUser`: `userDevice.deleteMany` for the user
followed by `createMany` over the supplied list. -/
def applyDeviceWrites (id : String) (data : UpdateUserInput) (db : DB) : DB :=
  match data.deviceIds with
  | none => db
  | some dids =>
    { db with userDevices :=
        (db.userDevices.filter (fun ud => ud.userId != id))
          ++ dids.map (fun did => { userId := id, deviceId := did }) }

/-- The final `user.update` payload applied to the target row: supplied fields
overwrite, absent fields leave the row unchanged; `primaryUpdate` is the
derived `primaryCompanyId` write, when one is made. -/
def applyUpdateData (u : UserRow) (data : UpdateUserInput)
    (primaryUpdate : Option (Option String)) : UserRow :=
  { u with
      name := data.name.getD u.name
      email := data.email.getD u.email
      phoneNumber := data.phoneNumber.getD u.phoneNumber
      role := data.role.getD u.role
      status := data.status.getD u.status
      position := data.position.getD u.position
      primaryCompanyId := primaryUpdate.getD u.primaryCompanyId }

/-- `UserService.updateUser` (src/services/device.service.ts, user-service
section). The result pairs the persisted state with the thrown error, if any:
note that the company writes precede the device-phase validation, exactly as in
the source. -/
def updateUser (id : String) (data : UpdateUserInput) (authUser : AuthUser) (db : DB) :
    DB × Option AppError :=
  match db.users.find? (fun u => u.id == id && !u.deleted) with
  | none => (db, some (.notFound "User not found"))
  | some existingUser =>
    if !(canManageUser authUser existingUser.role) then
      (db, some (.forbidden ("You do not have permission to update "
        ++ existingUser.role.toStr ++ " users")))
    else if (data.role.map (fun r => !(canManageUser authUser r))).getD false then
      (db, some (.forbidden ("You do not have permission to assign "
        ++ (data.role.getD existingUser.role).toStr ++ " role")))
    else if emailConflict data existingUser db then
      (db, some (.conflict "User with this email already exists"))
    else if companyIdsInvalid data db then
      (db, some (.validation "One or more company IDs are invalid"))
    else
      let db1 := applyCompanyWrites id data db
      match devicePhaseError id data authUser existingUser db with
      | some e => (db1, some e)
      | none =>
        let db2 := applyDeviceWrites id data db1
        let db3 := { db2 with users := db2.users.map (fun u =>
            if u.id == id then applyUpdateData u data (primaryCompanyUpdate data) else u) }
        if data.status == some UserStatus.SUSPENDED
            && existingUser.status != UserStatus.SUSPENDED then
          ({ db3 with sessions := db3.sessions.filter (fun s => s.userId != id) }, none)
        else (db3, none)

/-- `UserService.deleteUser` (soft delete): hierarchy check via
`canManageUser`, then the self-deletion guard, then the `deleted` flag write. -/
def deleteUser (id : String) (authUser : AuthUser) (db : DB) : DB × Option AppError :=
  match db.users.find? (fun u => u.id == id && !u.deleted) with
  | none => (db, some (.notFound "User not found"))
  | some existingUser =>
    if !(canManageUser authUser existingUser.role) then
      (db, some (.forbidden ("You do not have permission to delete "
        ++ existingUser.role.toStr ++ " users")))
    else if existingUser.id == authUser.id then
      (db, some (.forbidden "You cannot delete your own account"))
    else
      ({ db with users := db.users.map (fun u =>
          if u.id == id then { u with deleted := true } else u) }, none)

end UserService

namespace CompanyService

/-- `CompanyService.canManageCompany` (src/services/company.service.ts):
SUPER_ADMIN anywhere, ADMIN in assigned companies, others never. -/
def canManageCompany (authUser : AuthUser) (companyId : String) : Bool :=
  if authUser.role = Role.SUPER_ADMIN then true
  else if authUser.role = Role.ADMIN then authUser.companyIds.contains companyId
  else false

/-- `CompanyService.deleteCompany` (soft delete). The `_count` selections count
every related row — the device count is NOT filtered by the device's `deleted`
flag, and the user count is over `userCompany` join rows. -/
def deleteCompany (id : String) (authUser : AuthUser) (db : DB) : DB × Option AppError :=
  match db.companies.find? (fun c => c.id == id && !c.deleted) with
  | none => (db, some (.notFound "Company not found"))
  | some _ =>
    let deviceCount := (db.devices.filter (fun d => d.companyId == id)).length
    let userCount := (db.userCompanies.filter (fun uc => uc.companyId == id)).length
    if !(canManageCompany authUser id) then
      (db, some (.forbidden "You do not have permission to delete this company"))
    else if deviceCount > 0 then
      (db, some (.validation
        "Cannot delete company with devices. Please delete or reassign devices first."))
    else if userCount > 1 || (userCount == 1 && authUser.role != Role.ADMIN) then
      (db, some (.validation
        "Cannot delete company with users. Please reassign users first."))
    else
      ({ db with companies := db.companies.map (fun c =>
          if c.id == id then { c with deleted := true } else c) }, none)

end CompanyService

/-- `CreateDeviceInput` (payload-only fields omitted). -/
structure CreateDeviceInput where
  name : String
  serialNumber : String
  companyId : String
  parentId : Option String := none
  deriving DecidableEq, Repr

namespace DeviceService

/-- `DeviceService.createDevice` (src/services/device.service.ts). `newId`
stands for the generated row id. -/
def createDevice (data : CreateDeviceInput) (authUser : AuthUser)
    (headerCompanyId : Option String) (newId : String) (db : DB) : DB × Option AppError :=
  if !([Role.ADMIN, Role.SUPER_ADMIN].contains authUser.role) then
    (db, some (.forbidden "Only ADMIN and SUPER_ADMIN can create devices"))
  else
    let activeCheck : Option AppError :=
      if authUser.role = Role.ADMIN then
        match getActiveCompanyId authUser headerCompanyId with
        | .error e => some e
        | .ok activeCompanyId =>
          if data.companyId != activeCompanyId then
            some (.forbidden "ADMIN can only create devices in the active company")
          else none
      else none
    match activeCheck with
    | some e => (db, some e)
    | none =>
      match db.companies.find? (fun c => c.id == data.companyId && !c.deleted) with
      | none => (db, some (.notFound "Company not found"))
      | some _ =>
        if db.devices.any (fun d => d.serialNumber == data.serialNumber
            && d.companyId == data.companyId && !d.deleted) then
          (db, some (.conflict
            "Device with this serial number already exists in this company"))
        else
          let newDevice : DeviceRow :=
            { id := newId
              name := data.name
              serialNumber := data.serialNumber
              companyId := data.companyId
              parentId := data.parentId
              deleted := false }
          match data.parentId with
          | some pid =>
            (match db.devices.find? (fun d => d.id == pid && !d.deleted) with
             | none => (db, some (.notFound "Parent device not found"))
             | some parentDevice =>
               if parentDevice.companyId != data.companyId then
                 (db, some (.validation "Parent device must be in the same company"))
               else ({ db with devices := db.devices ++ [newDevice] }, none))
          | none => ({ db with devices := db.devices ++ [newDevice] }, none)

end DeviceService

/-! ### Concrete fixtures used by counterexamples and witnesses -/

/-- Two SUPER_ADMIN users, neither deleted, no other rows. -/
def c2DB : DB :=
  { users :=
      [ { id := "u1", name := "Root One", email := "one@example.com",
          role := Role.SUPER_ADMIN }
      , { id := "u2", name := "Root Two", email := "two@example.com",
          role := Role.SUPER_ADMIN } ] }

/-- SUPER_ADMIN caller, the first of the two users of `c2DB`. -/
def c2Caller : AuthUser := { id := "u1", role := Role.SUPER_ADMIN, companyIds := [] }

/-- ADMIN caller of `c2DB` (for the witness of the amended C2). -/
def c2Admin : AuthUser := { id := "a9", role := Role.ADMIN, companyIds := ["companyA"] }

/-- ADMIN assigned to two companies whose primary is the second one. -/
def c3Caller : AuthUser :=
  { id := "a1", role := Role.ADMIN, companyIds := ["companyA", "companyB"],
    primaryCompanyId := some "companyB" }

/-- ADMIN with no assigned companies and no primary company. -/
def c6Caller : AuthUser := { id := "m1", role := Role.ADMIN, companyIds := [] }

/-- One company, zero devices, and a single assigned user who is NOT the
deleting actor. -/
def c4DB : DB :=
  { companies := [ { id := "companyA", name := "Acme" } ]
    userCompanies := [ { userId := "u9", companyId := "companyA" } ] }

/-- The ADMIN actor of the C4 counterexample (not the company's lone user). -/
def c4Actor : AuthUser := { id := "a1", role := Role.ADMIN, companyIds := ["companyA"] }

/-- A company with no devices and no users at all (C4 witness). -/
def c4FreeDB : DB := { companies := [ { id := "companyB", name := "Umbrella" } ] }

/-- SUPER_ADMIN actor for the C4 witness. -/
def c4Super : AuthUser := { id := "s1", role := Role.SUPER_ADMIN, companyIds := [] }

/-- A MANAGER with no assigned devices, to be demoted to VIEWER. -/
def c5DB : DB :=
  { users :=
      [ { id := "u1", name := "Eve", email := "eve@example.com",
          role := Role.MANAGER, status := .VALIDATED } ] }

/-- The role-only update that turns the user into a VIEWER. -/
def c5Data : UpdateUserInput := { role := some Role.VIEWER }

/-- SUPER_ADMIN caller for the C5/C7/C8 runs. -/
def c5Super : AuthUser := { id := "s1", role := Role.SUPER_ADMIN, companyIds := [] }

/-- A user assigned to companyA, plus a second company to move them to. -/
def c7DB : DB :=
  { users :=
      [ { id := "u1", name := "Eve", email := "eve@example.com",
          role := Role.MANAGER, status := .VALIDATED,
          primaryCompanyId := some "companyA" } ]
    companies :=
      [ { id := "companyA", name := "Acme" }, { id := "companyB", name := "Umbrella" } ]
    userCompanies := [ { userId := "u1", companyId := "companyA" } ] }

/-- Moves the user to companyB while also referencing a nonexistent device,
so the device phase fails after the company rows were already replaced. -/
def c7Data : UpdateUserInput :=
  { companyIds := some ["companyB"], deviceIds := some ["ghost-device"] }

/-- A user with a stale primary company, reassigned to two companies. -/
def c8DB : DB :=
  { users :=
      [ { id := "u1", name := "Eve", email := "eve@example.com",
          role := Role.MANAGER, status := .VALIDATED,
          primaryCompanyId := some "companyC" } ]
    companies :=
      [ { id := "companyA", name := "Acme" }, { id := "companyB", name := "Umbrella" } ]
    userCompanies := [ { userId := "u1", companyId := "companyC" } ] }

/-- The multi-valued company reassignment of the C8 counterexample. -/
def c8Data : UpdateUserInput := { companyIds := some ["companyA", "companyB"] }

/-- ADMIN assigned to two companies (C9 witness): active company resolves to
companyA via the header, but the device targets companyB. -/
def c9Caller : AuthUser := { id := "a1", role := Role.ADMIN, companyIds := ["companyA", "companyB"] }

/-- The device-creation input of the C9 witness. -/
def c9Input : CreateDeviceInput :=
  { name := "Sensor", serialNumber := "SN-1", companyId := "companyB" }

/-- ADMIN with a single assigned company (C10 witness). -/
def c10Caller : AuthUser := { id := "a1", role := Role.ADMIN, companyIds := ["companyA"] }

/-- A lone company for the C10 witness. -/
def c10DB : DB := { companies := [ { id := "companyA", name := "Acme" } ] }

/-- A MANAGER created with no explicit companies (C10 witness). -/
def c10Input : CreateUserInput :=
  { name := "Mia", email := "mia@example.com", role := Role.MANAGER }

/-- A VIEWER created with a company but no devices (C5 witness, create side). -/
def c5Create : CreateUserInput :=
  { name := "Vera", email := "vera@example.com", role := Role.VIEWER,
    companyIds := ["companyA"] }

/-- An update that sets role VIEWER and explicitly supplies an empty device
list (C5 witness, update side). -/
def c5DataB : UpdateUserInput := { role := some Role.VIEWER, deviceIds := some [] }

/-- Whether an error is a `ValidationError`. -/
def AppError.isValidation : AppError → Bool
  | .validation _ => true
  | _ => false

/-! ### Basic lemmas about the embedding -/

/-- An absent string is falsy. -/
theorem strTruthy_none : strTruthy none = false := rfl

/-- A present string is truthy when non-empty. -/
theorem strTruthy_some (s : String) : strTruthy (some s) = !s.isEmpty := rfl

/-! ### Projection lemmas for the write helpers of `updateUser` -/

/-- The company writes of `updateUser` never touch the user table. -/
theorem applyCompanyWrites_users (id : String) (data : UpdateUserInput) (db : DB) :
    (UserService.applyCompanyWrites id data db).users = db.users := by
  unfold UserService.applyCompanyWrites
  cases data.companyIds <;> rfl

/-- The company writes of `updateUser` never touch the user-device table. -/
theorem applyCompanyWrites_userDevices (id : String) (data : UpdateUserInput) (db : DB) :
    (UserService.applyCompanyWrites id data db).userDevices = db.userDevices := by
  unfold UserService.applyCompanyWrites
  cases data.companyIds <;> rfl

/-- The company writes of `updateUser` never touch the session table. -/
theorem applyCompanyWrites_sessions (id : String) (data : UpdateUserInput) (db : DB) :
    (UserService.applyCompanyWrites id data db).sessions = db.sessions := by
  unfold UserService.applyCompanyWrites
  cases data.companyIds <;> rfl

/-- The company writes of `updateUser` never touch the company table. -/
theorem applyCompanyWrites_companies (id : String) (data : UpdateUserInput) (db : DB) :
    (UserService.applyCompanyWrites id data db).companies = db.companies := by
  unfold UserService.applyCompanyWrites
  cases data.companyIds <;> rfl

/-- The company writes of `updateUser` never touch the device table. -/
theorem applyCompanyWrites_devices (id : String) (data : UpdateUserInput) (db : DB) :
    (UserService.applyCompanyWrites id data db).devices = db.devices := by
  unfold UserService.applyCompanyWrites
  cases data.companyIds <;> rfl

/-- The device writes of `updateUser` never touch the user table. -/
theorem applyDeviceWrites_users (id : String) (data : UpdateUserInput) (db : DB) :
    (UserService.applyDeviceWrites id data db).users = db.users := by
  unfold UserService.applyDeviceWrites
  cases data.deviceIds <;> rfl

/-! ### Claim C1 -/

/-- C1: for every actor role R and target role T, `canManageRole R T delete`
agrees with `canManageRole R T create` except exactly at
R = SUPER_ADMIN, T = SUPER_ADMIN, where create returns true and delete returns
false. -/
theorem claim_C1 :
    (∀ r t : Role, canManageRole r t RoleAction.delete =
      (canManageRole r t RoleAction.create &&
        !(r == Role.SUPER_ADMIN && t == Role.SUPER_ADMIN))) ∧
    canManageRole Role.SUPER_ADMIN Role.SUPER_ADMIN RoleAction.create = true ∧
    canManageRole Role.SUPER_ADMIN Role.SUPER_ADMIN RoleAction.delete = false := by
  decide

/-! ### Claim C2 -/

/-- C2 counterexample: a SUPER_ADMIN caller soft-deletes another SUPER_ADMIN —
`deleteUser` succeeds (no error) and flips the target's `deleted` flag, because
enforcement goes through `canManageUser` (which lets SUPER_ADMIN manage anyone),
not through the `canManageRole` delete matrix. -/
theorem claim_C2_counterexample :
    (UserService.deleteUser "u2" c2Caller c2DB).2 = none ∧
    (UserService.deleteUser "u2" c2Caller c2DB).1.users =
      [ { id := "u1", name := "Root One", email := "one@example.com",
          role := Role.SUPER_ADMIN }
      , { id := "u2", name := "Root Two", email := "two@example.com",
          role := Role.SUPER_ADMIN, deleted := true } ] := by
  decide

/-- C2 corrected: `deleteUser` enforces the `canManageUser` role hierarchy, not
the delete matrix. A caller whose role is not SUPER_ADMIN can never delete an
existing non-deleted SUPER_ADMIN target (ForbiddenError, state unchanged), but
a SUPER_ADMIN caller deleting another, distinct SUPER_ADMIN succeeds. -/
theorem claim_C2_amended :
    (∀ (id : String) (authUser : AuthUser) (db : DB) (target : UserRow),
        db.users.find? (fun u => u.id == id && !u.deleted) = some target →
        target.role = Role.SUPER_ADMIN →
        authUser.role ≠ Role.SUPER_ADMIN →
        UserService.deleteUser id authUser db =
          (db, some (AppError.forbidden ("You do not have permission to delete "
            ++ target.role.toStr ++ " users")))) ∧
    (∀ (id : String) (authUser : AuthUser) (db : DB) (target : UserRow),
        db.users.find? (fun u => u.id == id && !u.deleted) = some target →
        target.role = Role.SUPER_ADMIN →
        authUser.role = Role.SUPER_ADMIN →
        target.id ≠ authUser.id →
        (UserService.deleteUser id authUser db).2 = none) := by
  constructor
  · intro id au db t hfind hrole hne
    unfold UserService.deleteUser
    rw [hfind]
    have hcan : UserService.canManageUser au t.role = false := by
      rw [hrole]
      unfold UserService.canManageUser
      cases hau : au.role <;> simp_all
    simp [hcan]
  · intro id au db t hfind hrole hau hne
    unfold UserService.deleteUser
    rw [hfind]
    have hcan : UserService.canManageUser au t.role = true := by
      unfold UserService.canManageUser
      simp [hau]
    simp [hcan, hne]

/-- Witness for the amended C2: both branches at concrete inputs — an ADMIN
cannot delete the SUPER_ADMIN "u2" of `c2DB`, while the SUPER_ADMIN "u1" can. -/
theorem claim_C2_amended_witness :
    UserService.deleteUser "u2" c2Admin c2DB =
      (c2DB, some (AppError.forbidden ("You do not have permission to delete "
        ++ Role.toStr Role.SUPER_ADMIN ++ " users"))) ∧
    (UserService.deleteUser "u2" c2Caller c2DB).2 = none := by
  constructor
  · exact claim_C2_amended.1 "u2" c2Admin c2DB
      { id := "u2", name := "Root Two", email := "two@example.com",
        role := Role.SUPER_ADMIN }
      (by decide) (by decide) (by decide)
  · exact claim_C2_amended.2 "u2" c2Caller c2DB
      { id := "u2", name := "Root Two", email := "two@example.com",
        role := Role.SUPER_ADMIN }
      (by decide) (by decide) (by decide) (by decide)

/-! ### Claim C3 -/

/-- C3 counterexample: with both a primary company ("companyB") and other
assigned companies, and no requested company id, the middleware resolves to the
primary but `DeviceService.getActiveCompanyId` resolves to the FIRST assigned
company ("companyA") — so not every resolving code path yields the primary. -/
theorem claim_C3_counterexample :
    DeviceService.getActiveCompanyId c3Caller none = Except.ok "companyA" ∧
    c3Caller.primaryCompanyId = some "companyB" ∧
    ("companyA" : String) ≠ "companyB" ∧
    activeCompanyMiddleware c3Caller none = Except.ok (some "companyB") := by
  decide

/-- C3 corrected: only `activeCompanyMiddleware` prefers `primaryCompanyId`;
`DeviceService.getActiveCompanyId` ignores it and falls back to the first
element of `companyIds` when no company id is requested. -/
theorem claim_C3_amended :
    (∀ au : AuthUser, au.role ≠ Role.SUPER_ADMIN →
        strTruthy au.primaryCompanyId = true →
        activeCompanyMiddleware au none = Except.ok au.primaryCompanyId) ∧
    (∀ (au : AuthUser) (c : String) (rest : List String),
        au.companyIds = c :: rest → strTruthy (some c) = true →
        DeviceService.getActiveCompanyId au none = Except.ok c) := by
  constructor
  · intro au hrole hprim
    unfold activeCompanyMiddleware
    simp [hrole, strTruthy_none, hprim]
  · intro au c rest hc htr
    unfold DeviceService.getActiveCompanyId
    simp [hc, strTruthy_none, htr]

/-- Witness for the amended C3 at the concrete caller `c3Caller`. -/
theorem claim_C3_amended_witness :
    activeCompanyMiddleware c3Caller none = Except.ok c3Caller.primaryCompanyId ∧
    DeviceService.getActiveCompanyId c3Caller none = Except.ok "companyA" := by
  constructor
  · exact claim_C3_amended.1 c3Caller (by decide) (by decide)
  · exact claim_C3_amended.2 c3Caller "companyA" ["companyB"] (by decide) (by decide)

/-! ### Claim C6 -/

/-- C6 counterexample: a non-SUPER_ADMIN caller with no assigned companies who
sends a malformed company hint gets a ValidationError, not a ForbiddenError. -/
theorem claim_C6_counterexample :
    activeCompanyMiddleware c6Caller (some "not-a-uuid") =
      Except.error (AppError.validation "Invalid company ID format in header") ∧
    isForbiddenResult (activeCompanyMiddleware c6Caller (some "not-a-uuid")) = false := by
  decide

/-- C6 corrected: for a caller with role ≠ SUPER_ADMIN, no assigned companies
and no primary company, the middleware always fails — with ForbiddenError when
the hint is absent (or falsy) or well-formed, but with ValidationError when the
hint is malformed. -/
theorem claim_C6_amended :
    ∀ (au : AuthUser) (hint : Option String),
      au.role ≠ Role.SUPER_ADMIN → au.companyIds = [] → au.primaryCompanyId = none →
      (strTruthy hint = false →
        activeCompanyMiddleware au hint = Except.error (AppError.forbidden
          "Active company context required. User is not assigned to any company.")) ∧
      (strTruthy hint = true → isUuid (hint.getD "") = true →
        activeCompanyMiddleware au hint = Except.error (AppError.forbidden
          ("Access denied. User is not assigned to company ID: " ++ hint.getD "" ++ "."))) ∧
      (strTruthy hint = true → isUuid (hint.getD "") = false →
        activeCompanyMiddleware au hint = Except.error (AppError.validation
          "Invalid company ID format in header")) := by
  intro au hint hrole hcomp hprim
  refine ⟨?_, ?_, ?_⟩
  · intro hfalsy
    unfold activeCompanyMiddleware
    simp [hrole, hfalsy, hcomp, hprim, strTruthy_none]
  · intro htr huuid
    unfold activeCompanyMiddleware
    simp [hrole, htr, huuid, hcomp]
  · intro htr huuid
    unfold activeCompanyMiddleware
    simp [hrole, htr, huuid]

/-- Witness for the amended C6 at `c6Caller` with each kind of hint. -/
theorem claim_C6_amended_witness :
    (activeCompanyMiddleware c6Caller none = Except.error (AppError.forbidden
      "Active company context required. User is not assigned to any company.")) ∧
    (activeCompanyMiddleware c6Caller (some "11111111-2222-3333-4444-555555555555") =
      Except.error (AppError.forbidden
        ("Access denied. User is not assigned to company ID: "
          ++ "11111111-2222-3333-4444-555555555555" ++ "."))) ∧
    (activeCompanyMiddleware c6Caller (some "nope") =
      Except.error (AppError.validation "Invalid company ID format in header")) := by
  refine ⟨?_, ?_, ?_⟩
  · exact (claim_C6_amended c6Caller none (by decide) (by decide) (by decide)).1 (by decide)
  · exact (claim_C6_amended c6Caller (some "11111111-2222-3333-4444-555555555555")
      (by decide) (by decide) (by decide)).2.1 (by decide) (by decide)
  · exact (claim_C6_amended c6Caller (some "nope")
      (by decide) (by decide) (by decide)).2.2 (by decide) (by decide)

/-! ### Claim C9 -/

/-- C9 confirmed: for an ADMIN caller whose active company resolves to `act`,
creating a device whose `companyId` differs from `act` fails with
ForbiddenError and leaves the state unchanged — membership of `companyId` in
the caller's assigned companies is never consulted. -/
theorem claim_C9 :
    ∀ (data : CreateDeviceInput) (au : AuthUser) (header : Option String)
      (newId : String) (db : DB) (act : String),
      au.role = Role.ADMIN →
      DeviceService.getActiveCompanyId au header = Except.ok act →
      data.companyId ≠ act →
      DeviceService.createDevice data au header newId db =
        (db, some (AppError.forbidden
          "ADMIN can only create devices in the active company")) := by
  intro data au header newId db act hrole hres hne
  unfold DeviceService.createDevice
  simp [hrole, hres, hne]

/-- Witness for C9: the ADMIN `c9Caller` is assigned to companyB, yet creating
a device in companyB while the active company is companyA is forbidden. -/
theorem claim_C9_witness :
    c9Caller.companyIds.contains c9Input.companyId = true ∧
    DeviceService.createDevice c9Input c9Caller (some "companyA") "d1" ({} : DB) =
      (({} : DB), some (AppError.forbidden
        "ADMIN can only create devices in the active company")) := by
  constructor
  · decide
  · exact claim_C9 c9Input c9Caller (some "companyA") "d1" ({} : DB) "companyA"
      (by decide) (by decide) (by decide)

/-! ### Claim C4 -/

/-- C4 counterexample: an ADMIN deletes a company with zero devices whose single
assigned user is NOT the deleting actor — `deleteCompany` succeeds anyway,
because the code only checks the count and the actor's role, never the lone
user's identity. -/
theorem claim_C4_counterexample :
    (CompanyService.deleteCompany "companyA" c4Actor c4DB).2 = none ∧
    (CompanyService.deleteCompany "companyA" c4Actor c4DB).1.companies =
      [ { id := "companyA", name := "Acme", deleted := true } ] ∧
    c4DB.userCompanies = [ { userId := "u9", companyId := "companyA" } ] ∧
    ("u9" : String) ≠ c4Actor.id := by
  decide

/-- C4 corrected: after the permission check passes, `deleteCompany` succeeds
iff the company has zero associated device rows (soft-deleted devices count
too) and either zero assigned users or exactly one assigned user — any user,
not necessarily the actor — while the actor's role is ADMIN; on any violation
it fails with ValidationError and the state is unchanged. -/
theorem claim_C4_amended :
    ∀ (id : String) (au : AuthUser) (db : DB) (c : CompanyRow),
      db.companies.find? (fun x => x.id == id && !x.deleted) = some c →
      CompanyService.canManageCompany au id = true →
      (((CompanyService.deleteCompany id au db).2 = none) ↔
        ((db.devices.filter (fun d => d.companyId == id)).length = 0 ∧
          ((db.userCompanies.filter (fun uc => uc.companyId == id)).length = 0 ∨
            ((db.userCompanies.filter (fun uc => uc.companyId == id)).length = 1 ∧
              au.role = Role.ADMIN)))) ∧
      (∀ e, (CompanyService.deleteCompany id au db).2 = some e →
        e.isValidation = true ∧ (CompanyService.deleteCompany id au db).1 = db) := by
  intro id au db c hfind hcan
  unfold CompanyService.deleteCompany
  rw [hfind]
  simp only [hcan, Bool.not_true, Bool.false_eq_true, if_false]
  by_cases hd : (db.devices.filter (fun d => d.companyId == id)).length > 0
  · rw [if_pos hd]
    constructor
    · constructor
      · intro h; exact absurd h (by simp)
      · intro h; exact absurd h.1 (by omega)
    · intro e he
      have he' : e = AppError.validation
          "Cannot delete company with devices. Please delete or reassign devices first." := by
        simpa using he.symm
      subst he'
      exact ⟨rfl, rfl⟩
  · rw [if_neg hd]
    by_cases hu : ((db.userCompanies.filter (fun uc => uc.companyId == id)).length > 1 ∨
        ((db.userCompanies.filter (fun uc => uc.companyId == id)).length = 1 ∧
          au.role ≠ Role.ADMIN))
    · have hcond : (decide ((db.userCompanies.filter (fun uc => uc.companyId == id)).length > 1) ||
          ((db.userCompanies.filter (fun uc => uc.companyId == id)).length == 1 &&
            au.role != Role.ADMIN)) = true := by
        rcases hu with h1 | ⟨h2, h3⟩
        · simp [h1]
        · simp [h2, h3]
      rw [if_pos hcond]
      constructor
      · constructor
        · intro h; exact absurd h (by simp)
        · intro h
          exfalso
          rcases h with ⟨h0, h1 | ⟨h1, hadm⟩⟩
          · rcases hu with hg | ⟨he1, hne⟩
            · omega
            · omega
          · rcases hu with hg | ⟨he1, hne⟩
            · omega
            · exact hne hadm
      · intro e he
        have he' : e = AppError.validation
            "Cannot delete company with users. Please reassign users first." := by
          simpa using he.symm
        subst he'
        exact ⟨rfl, rfl⟩
    · have hcond : (decide ((db.userCompanies.filter (fun uc => uc.companyId == id)).length > 1) ||
          ((db.userCompanies.filter (fun uc => uc.companyId == id)).length == 1 &&
            au.role != Role.ADMIN)) = false := by
        push_neg at hu
        rcases hu with ⟨h1, h2⟩
        by_cases hone : (db.userCompanies.filter (fun uc => uc.companyId == id)).length = 1
        · simp [h1, hone, h2 hone]
        · simp [h1, hone]
      rw [if_neg (by simp [hcond])]
      constructor
      · constructor
        · intro _
          push_neg at hu
          rcases hu with ⟨h1, h2⟩
          refine ⟨by omega, ?_⟩
          by_cases hone : (db.userCompanies.filter (fun uc => uc.companyId == id)).length = 1
          · exact Or.inr ⟨hone, h2 hone⟩
          · exact Or.inl (by omega)
        · intro _; rfl
      · intro e he
        exact absurd he (by simp)

/-- Witness for the amended C4: deleting the user-free, device-free company of
`c4FreeDB` as SUPER_ADMIN succeeds. -/
theorem claim_C4_amended_witness :
    (CompanyService.deleteCompany "companyB" c4Super c4FreeDB).2 = none :=
  (claim_C4_amended "companyB" c4Super c4FreeDB
    { id := "companyB", name := "Umbrella" } (by decide) (by decide)).1.mpr
    (by decide)

/-! ### Claim C5 -/

/-- C5 counterexample: a role-only update to VIEWER on a user with zero
assigned devices succeeds — the empty-device check never runs because
`deviceIds` is absent from the input. -/
theorem claim_C5_counterexample :
    (UserService.updateUser "u1" c5Data c5Super c5DB).2 = none ∧
    (UserService.updateUser "u1" c5Data c5Super c5DB).1.users =
      [ { id := "u1", name := "Eve", email := "eve@example.com",
          role := Role.VIEWER, status := .VALIDATED } ] ∧
    (UserService.updateUser "u1" c5Data c5Super c5DB).1.userDevices = [] := by
  decide

/-- C5 corrected: creating a VIEWER with an empty device list fails with
ValidationError (once the earlier permission/email/company checks pass), and an
update whose resulting role is VIEWER fails with ValidationError when it
explicitly supplies an empty `deviceIds` — but an update that sets the role
alone, without touching `deviceIds`, performs no device check at all. -/
theorem claim_C5_amended :
    (∀ (data : CreateUserInput) (au : AuthUser) (newId : String) (db : DB),
        UserService.canCreateRole au data.role = true →
        db.users.any (fun u => u.email == data.email) = false →
        UserService.createCompanyIdsInvalid data au db = false →
        data.role = Role.VIEWER → data.deviceIds = [] →
        UserService.createUser data au newId db =
          (db, some (AppError.validation
            "VIEWER users must have at least one device assigned"))) ∧
    (∀ (id : String) (data : UpdateUserInput) (au : AuthUser) (db : DB) (ex : UserRow),
        db.users.find? (fun u => u.id == id && !u.deleted) = some ex →
        UserService.canManageUser au ex.role = true →
        (data.role.map (fun r => !(UserService.canManageUser au r))).getD false = false →
        UserService.emailConflict data ex db = false →
        UserService.companyIdsInvalid data db = false →
        data.deviceIds = some [] →
        data.role.getD ex.role = Role.VIEWER →
        UserService.updateUser id data au db =
          (UserService.applyCompanyWrites id data db,
            some (AppError.validation
              "VIEWER users must have at least one device assigned"))) := by
  constructor
  · intro data au newId db hperm hemail hcomp hrole hdev
    rw [hrole] at hperm
    unfold UserService.createUser
    simp [hperm, hemail, hcomp, hrole, hdev]
  · intro id data au db ex hfind hcan hroleperm hemail hcomp hdev hrole
    unfold UserService.updateUser
    rw [hfind]
    have hdevErr : UserService.devicePhaseError id data au ex db =
        some (AppError.validation "VIEWER users must have at least one device assigned") := by
      unfold UserService.devicePhaseError
      rw [hdev]
      simp [hrole]
    simp [hcan, hroleperm, hemail, hcomp, hdevErr]

/-- Witness for the amended C5 at concrete inputs: creating the device-less
VIEWER `c5Create` fails, and updating "u1" to VIEWER with an explicit empty
device list fails, in both cases with the VIEWER ValidationError. -/
theorem claim_C5_amended_witness :
    UserService.createUser c5Create c10Caller "u7" c10DB =
      (c10DB, some (AppError.validation
        "VIEWER users must have at least one device assigned")) ∧
    UserService.updateUser "u1" c5DataB c5Super c5DB =
      (UserService.applyCompanyWrites "u1" c5DataB c5DB,
        some (AppError.validation
          "VIEWER users must have at least one device assigned")) := by
  constructor
  · exact claim_C5_amended.1 c5Create c10Caller "u7" c10DB
      (by decide) (by decide) (by decide) (by decide) (by decide)
  · exact claim_C5_amended.2 "u1" c5DataB c5Super c5DB
      { id := "u1", name := "Eve", email := "eve@example.com",
        role := Role.MANAGER, status := .VALIDATED }
      (by decide) (by decide) (by decide) (by decide) (by decide) (by decide) (by decide)

/-! ### Claim C10 -/

/-- C10 confirmed: when a non-SUPER_ADMIN caller creates a user without
companyIds and the remaining checks pass, the new user is silently assigned to
every company in the caller's own assigned set, and the new row's
primaryCompanyId is that set's sole element when it has exactly one element
(null otherwise). -/
theorem claim_C10 :
    ∀ (data : CreateUserInput) (au : AuthUser) (newId : String) (db : DB),
      au.role ≠ Role.SUPER_ADMIN →
      data.companyIds = [] →
      UserService.canCreateRole au data.role = true →
      db.users.any (fun u => u.email == data.email) = false →
      UserService.createCompanyIdsInvalid data au db = false →
      (data.role == Role.VIEWER && data.deviceIds.isEmpty) = false →
      UserService.createDeviceError data au db = none →
      (UserService.createUser data au newId db).2 = none ∧
      (UserService.createUser data au newId db).1.userCompanies =
        db.userCompanies ++ au.companyIds.map
          (fun cid => { userId := newId, companyId := cid }) ∧
      (UserService.createUser data au newId db).1.users.map
          (fun r => r.primaryCompanyId) =
        db.users.map (fun r => r.primaryCompanyId) ++
          [if au.companyIds.length == 1 then au.companyIds.head? else none] := by
  intro data au newId db hrole hnone hperm hemail hcomp hviewer hdevErr
  have heff : UserService.effectiveCompanyIds data au = au.companyIds := by
    unfold UserService.effectiveCompanyIds
    simp [hnone, hrole]
  unfold UserService.createUser
  simp [hperm, hemail, hcomp, hviewer, hdevErr, heff]

/-- Witness for C10: the ADMIN `c10Caller` (sole company "companyA") creates
`c10Input` with no companyIds; the created user lands in "companyA" and has it
as primary company. -/
theorem claim_C10_witness :
    (UserService.createUser c10Input c10Caller "u7" c10DB).2 = none ∧
    (UserService.createUser c10Input c10Caller "u7" c10DB).1.userCompanies =
      c10DB.userCompanies ++ c10Caller.companyIds.map
        (fun cid => { userId := "u7", companyId := cid }) ∧
    (UserService.createUser c10Input c10Caller "u7" c10DB).1.users.map
        (fun r => r.primaryCompanyId) =
      c10DB.users.map (fun r => r.primaryCompanyId) ++
        [if c10Caller.companyIds.length == 1 then c10Caller.companyIds.head? else none] :=
  claim_C10 c10Input c10Caller "u7" c10DB
    (by decide) (by decide) (by decide) (by decide) (by decide) (by decide) (by decide)

/-! ### Claim C7 -/

/-- C7 counterexample: an update that moves the user from companyA to companyB
while also naming a nonexistent device fails with ValidationError, yet the
persisted userCompany rows have already been replaced — the state after the
failed call differs from the state before it. -/
theorem claim_C7_counterexample :
    (UserService.updateUser "u1" c7Data c5Super c7DB).2 =
      some (AppError.validation "One or more device IDs are invalid") ∧
    (UserService.updateUser "u1" c7Data c5Super c7DB).1.userCompanies =
      [ { userId := "u1", companyId := "companyB" } ] ∧
    c7DB.userCompanies = [ { userId := "u1", companyId := "companyA" } ] ∧
    (UserService.updateUser "u1" c7Data c5Super c7DB).1 ≠ c7DB := by
  decide

/-- C7 corrected: `updateUser` does NOT validate everything before writing.
Failures before the company phase (missing user, role permissions, email
conflict, invalid company ids) leave the state unchanged, but the company
writes run before the device-phase validation, so a device-phase failure
persists exactly the replaced company assignment — only the userCompany table
changes; user rows, userDevice rows and sessions stay untouched. -/
theorem claim_C7_amended :
    (∀ (id : String) (data : UpdateUserInput) (au : AuthUser) (db : DB),
        db.users.find? (fun u => u.id == id && !u.deleted) = none →
        UserService.updateUser id data au db =
          (db, some (AppError.notFound "User not found"))) ∧
    (∀ (id : String) (data : UpdateUserInput) (au : AuthUser) (db : DB) (ex : UserRow),
        db.users.find? (fun u => u.id == id && !u.deleted) = some ex →
        UserService.canManageUser au ex.role = false →
        UserService.updateUser id data au db =
          (db, some (AppError.forbidden ("You do not have permission to update "
            ++ ex.role.toStr ++ " users")))) ∧
    (∀ (id : String) (data : UpdateUserInput) (au : AuthUser) (db : DB) (ex : UserRow),
        db.users.find? (fun u => u.id == id && !u.deleted) = some ex →
        UserService.canManageUser au ex.role = true →
        (data.role.map (fun r => !(UserService.canManageUser au r))).getD false = true →
        UserService.updateUser id data au db =
          (db, some (AppError.forbidden ("You do not have permission to assign "
            ++ (data.role.getD ex.role).toStr ++ " role")))) ∧
    (∀ (id : String) (data : UpdateUserInput) (au : AuthUser) (db : DB) (ex : UserRow),
        db.users.find? (fun u => u.id == id && !u.deleted) = some ex →
        UserService.canManageUser au ex.role = true →
        (data.role.map (fun r => !(UserService.canManageUser au r))).getD false = false →
        UserService.emailConflict data ex db = true →
        UserService.updateUser id data au db =
          (db, some (AppError.conflict "User with this email already exists"))) ∧
    (∀ (id : String) (data : UpdateUserInput) (au : AuthUser) (db : DB) (ex : UserRow),
        db.users.find? (fun u => u.id == id && !u.deleted) = some ex →
        UserService.canManageUser au ex.role = true →
        (data.role.map (fun r => !(UserService.canManageUser au r))).getD false = false →
        UserService.emailConflict data ex db = false →
        UserService.companyIdsInvalid data db = true →
        UserService.updateUser id data au db =
          (db, some (AppError.validation "One or more company IDs are invalid"))) ∧
    (∀ (id : String) (data : UpdateUserInput) (au : AuthUser) (db : DB) (ex : UserRow)
        (e : AppError),
        db.users.find? (fun u => u.id == id && !u.deleted) = some ex →
        UserService.canManageUser au ex.role = true →
        (data.role.map (fun r => !(UserService.canManageUser au r))).getD false = false →
        UserService.emailConflict data ex db = false →
        UserService.companyIdsInvalid data db = false →
        UserService.devicePhaseError id data au ex db = some e →
        UserService.updateUser id data au db =
          (UserService.applyCompanyWrites id data db, some e) ∧
        (UserService.applyCompanyWrites id data db).users = db.users ∧
        (UserService.applyCompanyWrites id data db).userDevices = db.userDevices ∧
        (UserService.applyCompanyWrites id data db).sessions = db.sessions) := by
  refine ⟨?_, ?_, ?_, ?_, ?_, ?_⟩
  · intro id data au db hfind
    unfold UserService.updateUser
    rw [hfind]
  · intro id data au db ex hfind hcan
    unfold UserService.updateUser
    rw [hfind]
    simp [hcan]
  · intro id data au db ex hfind hcan hroleperm
    unfold UserService.updateUser
    rw [hfind]
    simp [hcan, hroleperm]
  · intro id data au db ex hfind hcan hroleperm hemail
    unfold UserService.updateUser
    rw [hfind]
    simp [hcan, hroleperm, hemail]
  · intro id data au db ex hfind hcan hroleperm hemail hcomp
    unfold UserService.updateUser
    rw [hfind]
    simp [hcan, hroleperm, hemail, hcomp]
  · intro id data au db ex e hfind hcan hroleperm hemail hcomp hdev
    refine ⟨?_, applyCompanyWrites_users id data db,
      applyCompanyWrites_userDevices id data db, applyCompanyWrites_sessions id data db⟩
    unfold UserService.updateUser
    rw [hfind]
    simp [hcan, hroleperm, hemail, hcomp, hdev]

/-- Witness for the amended C7: the concrete failing update of the C7 run hits
the device-phase branch, persisting exactly the company writes. -/
theorem claim_C7_amended_witness :
    UserService.updateUser "u1" c7Data c5Super c7DB =
      (UserService.applyCompanyWrites "u1" c7Data c7DB,
        some (AppError.validation "One or more device IDs are invalid")) ∧
    (UserService.applyCompanyWrites "u1" c7Data c7DB).users = c7DB.users ∧
    (UserService.applyCompanyWrites "u1" c7Data c7DB).userDevices = c7DB.userDevices ∧
    (UserService.applyCompanyWrites "u1" c7Data c7DB).sessions = c7DB.sessions :=
  claim_C7_amended.2.2.2.2.2 "u1" c7Data c5Super c7DB
    { id := "u1", name := "Eve", email := "eve@example.com",
      role := Role.MANAGER, status := .VALIDATED,
      primaryCompanyId := some "companyA" }
    (AppError.validation "One or more device IDs are invalid")
    (by decide) (by decide) (by decide) (by decide) (by decide) (by decide)

/-! ### Claim C8 -/

/-- C8 counterexample: reassigning the user of `c8DB` to TWO companies
succeeds but leaves the stale primaryCompanyId "companyC" in place — the
multi-valued case does not clear it to null. -/
theorem claim_C8_counterexample :
    (UserService.updateUser "u1" c8Data c5Super c8DB).2 = none ∧
    (UserService.updateUser "u1" c8Data c5Super c8DB).1.userCompanies =
      [ { userId := "u1", companyId := "companyA" },
        { userId := "u1", companyId := "companyB" } ] ∧
    (UserService.updateUser "u1" c8Data c5Super c8DB).1.users =
      [ { id := "u1", name := "Eve", email := "eve@example.com",
          role := Role.MANAGER, status := .VALIDATED,
          primaryCompanyId := some "companyC" } ] := by
  decide

/-- C8 corrected: `createUser` derives the stored primaryCompanyId as the sole
assigned company and clears it to null when the assignment is empty OR
multi-valued; `updateUser` (when companyIds is supplied) sets it to the sole
company, clears it when the list is empty, but leaves it UNCHANGED when the
list is multi-valued. -/
theorem claim_C8_amended :
    (∀ (data : CreateUserInput) (au : AuthUser) (newId : String) (db : DB),
        UserService.canCreateRole au data.role = true →
        db.users.any (fun u => u.email == data.email) = false →
        UserService.createCompanyIdsInvalid data au db = false →
        (data.role == Role.VIEWER && data.deviceIds.isEmpty) = false →
        UserService.createDeviceError data au db = none →
        (UserService.createUser data au newId db).1.users.map
            (fun r => r.primaryCompanyId) =
          db.users.map (fun r => r.primaryCompanyId) ++
            [if (UserService.effectiveCompanyIds data au).length == 1
              then (UserService.effectiveCompanyIds data au).head? else none]) ∧
    (∀ (id : String) (data : UpdateUserInput) (au : AuthUser) (db : DB) (ex : UserRow),
        db.users.find? (fun u => u.id == id && !u.deleted) = some ex →
        UserService.canManageUser au ex.role = true →
        (data.role.map (fun r => !(UserService.canManageUser au r))).getD false = false →
        UserService.emailConflict data ex db = false →
        UserService.companyIdsInvalid data db = false →
        UserService.devicePhaseError id data au ex db = none →
        (UserService.updateUser id data au db).1.users =
          db.users.map (fun u => if u.id == id
            then UserService.applyUpdateData u data (UserService.primaryCompanyUpdate data)
            else u)) ∧
    (∀ (u : UserRow) (data : UpdateUserInput) (cids : List String),
        data.companyIds = some cids →
        (UserService.applyUpdateData u data
            (UserService.primaryCompanyUpdate data)).primaryCompanyId =
          (if cids.length == 1 then cids.head?
           else if cids.isEmpty then none else u.primaryCompanyId)) := by
  refine ⟨?_, ?_, ?_⟩
  · intro data au newId db hperm hemail hcomp hviewer hdevErr
    unfold UserService.createUser
    simp [hperm, hemail, hcomp, hviewer, hdevErr]
  · intro id data au db ex hfind hcan hroleperm hemail hcomp hdev
    unfold UserService.updateUser
    rw [hfind]
    simp only [hcan, hroleperm, hemail, hcomp, hdev, Bool.not_true, Bool.not_false,
      Bool.false_eq_true, if_false, if_true]
    split <;>
      simp [applyDeviceWrites_users, applyCompanyWrites_users]
  · intro u data cids hc
    unfold UserService.applyUpdateData UserService.primaryCompanyUpdate
    rw [hc]
    rcases cids with _ | ⟨a, rest⟩
    · simp
    · rcases rest with _ | ⟨b, t⟩
      · simp
      · have h1 : ((a :: b :: t).length == 1) = false := by
          simp only [List.length_cons, beq_eq_false_iff_ne]
          omega
        have h0 : ((a :: b :: t).length == 0) = false := by
          simp only [List.length_cons, beq_eq_false_iff_ne]
          omega
        simp [h1, h0]

/-- Witness for the amended C8: the create side on `c10Input` and the update
side on the concrete multi-valued reassignment of `c8DB`. -/
theorem claim_C8_amended_witness :
    (UserService.createUser c10Input c10Caller "u8" c10DB).1.users.map
        (fun r => r.primaryCompanyId) =
      c10DB.users.map (fun r => r.primaryCompanyId) ++
        [if (UserService.effectiveCompanyIds c10Input c10Caller).length == 1
          then (UserService.effectiveCompanyIds c10Input c10Caller).head? else none] ∧
    (UserService.updateUser "u1" c8Data c5Super c8DB).1.users =
      c8DB.users.map (fun u => if u.id == "u1"
        then UserService.applyUpdateData u c8Data (UserService.primaryCompanyUpdate c8Data)
        else u) ∧
    (UserService.applyUpdateData
        { id := "u1", name := "Eve", email := "eve@example.com",
          role := Role.MANAGER, status := .VALIDATED,
          primaryCompanyId := some "companyC" }
        c8Data (UserService.primaryCompanyUpdate c8Data)).primaryCompanyId =
      (if (["companyA", "companyB"] : List String).length == 1
        then (["companyA", "companyB"] : List String).head?
        else if (["companyA", "companyB"] : List String).isEmpty then none
        else some "companyC") := by
  refine ⟨?_, ?_, ?_⟩
  · exact claim_C8_amended.1 c10Input c10Caller "u8" c10DB
      (by decide) (by decide) (by decide) (by decide) (by decide)
  · exact claim_C8_amended.2.1 "u1" c8Data c5Super c8DB
      { id := "u1", name := "Eve", email := "eve@example.com",
        role := Role.MANAGER, status := .VALIDATED,
        primaryCompanyId := some "companyC" }
      (by decide) (by decide) (by decide) (by decide) (by decide) (by decide)
  · exact claim_C8_amended.2.2
      { id := "u1", name := "Eve", email := "eve@example.com",
        role := Role.MANAGER, status := .VALIDATED,
        primaryCompanyId := some "companyC" }
      c8Data ["companyA", "companyB"] (by decide)

end IotNode
